import Mathlib

/-!
A shallow embedding of `firedrake/assemble.py` (the assembly engine).

The embedding mirrors the source function `_assemble` (lines 153-575 of
`src/firedrake/assemble.py`) and the deferred-assembly closure `thunk`
(lines 391-566) that it builds.  External collaborators (the form compiler,
the mesh layer's `measure_set`, pyop2's `Sparsity`/`par_loop`) are either
treated as opaque inputs carried on the `Form`, or, where a claim depends on
their contract, modelled from the spec (each such definition carries a
`Modelled from the spec:` doc comment).

Execution is modelled as a list of issued operations (`Op`): a run of the
engine produces `Except AsmError α × List Op`, the result (or the first
uncaught error) together with the operations issued before returning or
failing.  In loop-collection mode the same list is the collected loops
rather than the executed ones, exactly as in the source.
-/

namespace Fd

/-- A single quote character, used to mirror the source's error messages. -/
def sq : String := "\x27"

/-- Wrap a string in single quotes, as the source's `'%s'` formatting does. -/
def quoteS (s : String) : String := sq ++ s ++ sq

/-- Wrap a string in double quotes, as the source's `"%s"` formatting does. -/
def quoteD (s : String) : String := "\"" ++ s ++ "\""

/-- pyop2 iteration-region constants (`op2.ALL`, `op2.ON_TOP`, ...). -/
inductive Region
  | ALL
  | ON_BOTTOM
  | ON_TOP
  | ON_INTERIOR_FACETS
deriving DecidableEq, Repr

/-- A kernel's subdomain identifier: an explicit integer tag or one of the
sentinels `"everywhere"` / `"otherwise"`. -/
inductive SubdomainId
  | otherwise
  | everywhere
  | tag (n : Int)
deriving DecidableEq, Repr

/-- A mesh entity (cell or facet) carrying an optional integer subdomain tag. -/
structure Entity where
  id : Nat
  tag : Option Int
deriving DecidableEq, Repr

/-- A mesh (topology layer collaborator).  `entity_sets` gives, per integral
kind, the full entity set iterated for that kind; `subdomain_data` gives, per
integral kind, the optional caller-supplied subdomain data of the form
(`f.subdomain_data()[m]`, consulted at lines 398/407). -/
structure Mesh where
  topology : Nat
  entity_sets : List (String × List Entity)
  subdomain_data : List (String × List Entity)
deriving DecidableEq, Repr

/-- The full entity set a mesh iterates for a given integral kind. -/
def Mesh.entitySet (m : Mesh) (integral_type : String) : List Entity :=
  (m.entity_sets.lookup integral_type).getD []

/-- `subdomain_data.get(integral_type, None)` (line 407). -/
def Mesh.sdataFor (m : Mesh) (integral_type : String) : Option (List Entity) :=
  m.subdomain_data.lookup integral_type

/-- One block of a (possibly mixed) function space's dof set.  `blockable`
models whether the block's nodes are uniformly blockable (False for
"R"-type global degrees of freedom); it is consulted only by the
spec-modelled `op2_Sparsity`. -/
structure SubSpace where
  blockable : Bool
deriving DecidableEq, Repr

/-- A function space, flattened to the fields the assembly code reads:
`index` (position in a mixed space, `None` if not indexed), `component`
(component tag of a `ComponentFunctionSpace`, `None` otherwise),
`parent_index` (the `.parent.index` read at lines 421/548 when `component`
is set), `subs` (the top-level subspaces; `len(fs) = subs.length`), and the
topology of its mesh (`None` when the space has no domain). -/
structure FunctionSpace where
  name : String
  index : Option Nat
  component : Option Nat
  parent_index : Option Nat
  subs : List SubSpace
  topology : Option Nat
deriving DecidableEq, Repr

/-- `len(fs)`: the number of top-level subspaces (line 531). -/
def FunctionSpace.nspaces (fs : FunctionSpace) : Nat := fs.subs.length

/-- A coefficient of the form: its (optional) function space and the topology
of its (optional) integration domain (`coeff.ufl_domain()`). -/
structure Coefficient where
  function_space : Option FunctionSpace
  topology : Option Nat
deriving DecidableEq, Repr

/-- The metadata of a compiled kernel (`kinfo`), as produced by the external
form compiler and consumed at line 396. -/
structure KInfo where
  integral_type : String
  subdomain_id : SubdomainId
  domain_number : Nat
  coeff_map : List Nat
  needs_orientations : Bool
  needs_cell_facets : Bool
  pass_layer_arg : Bool
deriving DecidableEq, Repr

/-- A compiled kernel together with the argument-space block indices it
contributes to: `[i, j]` for rank 2, `[i]` for rank 1, `[]` for rank 0. -/
structure SplitKernel where
  indices : List Nat
  kinfo : KInfo
deriving DecidableEq, Repr

/-- A UFL form, flattened to what `_assemble` reads: argument spaces,
coefficients, integration domains, the integral types of `f.integrals()`
(line 215) and the compiled kernel list produced by the external form
compiler (line 214). -/
structure Form where
  arguments : List FunctionSpace
  coefficients : List Coefficient
  domains : List Mesh
  integral_types : List String
  kernels : List SplitKernel
deriving DecidableEq, Repr

/-- A Dirichlet boundary condition: the space it is defined on and its
constrained node indices (`bc.nodes`, line 530). -/
structure DirichletBC where
  function_space : FunctionSpace
  nodes : List Nat
deriving DecidableEq, Repr

/-- The Python exception classes raised by the assembly engine. -/
inductive AsmError
  | valueError (msg : String)
  | notImplementedError (msg : String)
  | runtimeError (msg : String)
deriving DecidableEq, Repr

/-- An operation issued by the assembly engine.  In normal mode the list of
`Op`s is the sequence of executed operations; in loop-collection mode it is
the collected list of loops (the source's `loops`).
`zero real` is the `zero_tensor` step of the thunk (line 392-395): `real`
is `true` when `zero_tensor` is the supplied tensor's `.zero` method
(lines 325/348) and `false` when it is the initial no-op `lambda: None`
(line 229), which does not modify the tensor.
`parLoop idx its iterate tsbc trbc` is the `op2.par_loop` issued for the
kernel at position `idx`, over iteration set `its`, with the extruded
iteration region `iterate` and the per-block boundary-condition lists
threaded into the test/trial maps (lines 489-491).
`setDiag i j nodes idx` is `tensor[i, j].set_local_diagonal_entries(nodes,
idx)` (lines 545/553/555); `bcApply b` is `bc.apply(result_function)` for
the `b`-th boundary condition of a rank-1 target (line 562). -/
inductive Op
  | compileForm
  | allocSparsity
  | allocMatrix
  | allocFunction
  | allocGlobal
  | implicitAssemble
  | zero (real : Bool)
  | parLoop (idx : Nat) (its : List Entity) (iterate : Option Region)
      (tsbc trbc : Option (List DirichletBC))
  | setDiag (i j : Nat) (nodes : List Nat) (idx : Option Nat)
  | bcApply (b : Nat)
  | matAssemble
deriving DecidableEq, Repr

def Op.isParLoop : Op → Bool
  | .parLoop .. => true
  | _ => false

def Op.isSetDiag : Op → Bool
  | .setDiag .. => true
  | _ => false

def Op.isZero : Op → Bool
  | .zero _ => true
  | _ => false

def Op.isRealZero : Op → Bool
  | .zero r => r
  | _ => false

/-- The block a `setDiag` operation writes, `none` for any other operation. -/
def Op.setDiagBlock : Op → Option (Nat × Nat)
  | .setDiag i j _ _ => some (i, j)
  | _ => none

/-- Operations issued by the setup phase (allocation), as opposed to the
accumulate / constrain / finalize phases run by the thunk. -/
def Op.isSetupOp : Op → Bool
  | .compileForm | .allocSparsity | .allocMatrix | .allocFunction
  | .allocGlobal | .implicitAssemble => true
  | _ => false

/-- The iteration set of a successfully built kernel loop, `none` otherwise. -/
def itsOf : Except AsmError Op → Option (List Entity)
  | .ok (.parLoop _ its _ _ _) => some its
  | _ => none

/-- The outcome of a fragment of the engine: the result (or first error)
together with the operations issued, in order, before returning or failing. -/
abbrev Outcome (α : Type) : Type := Except AsmError α × List Op

/-- Sequencing of two engine fragments: the second runs only if the first
succeeded, and the issued operations concatenate. -/
def seqA (m k : Outcome Unit) : Outcome Unit :=
  match m with
  | (.ok _, ops) => (k.1, ops ++ k.2)
  | (.error e, ops) => (.error e, ops)

/-- Issue a single operation. -/
def emitOp (o : Op) : Outcome Unit := (.ok (), [o])

/-- Issue nothing. -/
def skip : Outcome Unit := (.ok (), [])

/-- Fail with an error, issuing nothing. -/
def failE (e : AsmError) : Outcome Unit := (.error e, [])

/-- Python tuple comparison `block_shape > (1, 1)` (line 414):
lexicographic order on pairs. -/
def tupleGT (a b : Nat × Nat) : Bool := a.1 > b.1 || (a.1 == b.1 && a.2 > b.2)

/-- Lines 419-421 and 546-548: resolve a boundary condition's space to its
top-level mixed index, unwinding a `ComponentFunctionSpace` to its parent. -/
def resolvedIndex (fs : FunctionSpace) : Option Nat :=
  if fs.component.isSome then fs.parent_index else fs.index

/-- Ordering used to model `sorted` on the collected subdomain ids
(line 372).  On the integer tags it is the integer order; the sentinels are
ordered after all tags (Python itself would raise a `TypeError` when sorting
a mixed list, a case no compiled form produces). -/
def sd_le (a b : SubdomainId) : Bool :=
  match a, b with
  | .tag m, .tag n => m ≤ n
  | .tag _, _ => true
  | _, .tag _ => false
  | _, _ => true

def insertSorted (a : SubdomainId) : List SubdomainId → List SubdomainId
  | [] => [a]
  | b :: bs => if sd_le a b then a :: b :: bs else b :: insertSorted a bs

def sortSubdomainIds : List SubdomainId → List SubdomainId
  | [] => []
  | a :: rest => insertSorted a (sortSubdomainIds rest)

/-- Lines 367-372: the subdomain ids explicitly declared (anything except
`"otherwise"`) by the kernels of a given integral type, sorted.  The source
keeps them in a `defaultdict`, which yields `[]` for integral types with no
declared ids, as this function does. -/
def all_integer_subdomain_ids (kernels : List SplitKernel) (integral_type : String) :
    List SubdomainId :=
  sortSubdomainIds
    ((kernels.filter (fun k =>
        k.kinfo.integral_type == integral_type
          && k.kinfo.subdomain_id != SubdomainId.otherwise)).map
      (fun k => k.kinfo.subdomain_id))

/-- Whether a declared subdomain id is the integer tag carried by an entity. -/
def tagDeclared (s : SubdomainId) (t : Option Int) : Bool :=
  match s, t with
  | .tag n, some m => n == m
  | _, _ => false

/-- Modelled from the spec: `m.measure_set(integral_type, subdomain_id,
all_integer_subdomain_ids)` (line 436) lives in the mesh/topology layer,
which is not under `src/`.  Per the spec (components overview and the
accumulation-driver contract), subdomain filtering selects: for an explicit
integer tag, exactly the entities carrying that tag; for `"otherwise"`, all
entities whose tag is not among the integer tags explicitly declared
elsewhere in the same form (the `all_ids` argument); for `"everywhere"`,
the full entity set. -/
def measure_set (m : Mesh) (integral_type : String) (sd : SubdomainId)
    (all_ids : List SubdomainId) : List Entity :=
  match sd with
  | .everywhere => m.entitySet integral_type
  | .otherwise =>
      (m.entitySet integral_type).filter
        (fun e => !(all_ids.any (fun s => tagDeclared s e.tag)))
  | .tag n => (m.entitySet integral_type).filter (fun e => e.tag == some n)

/-- The context the deferred-assembly closure `thunk` (line 391) captures:
the kernel list, the form's domains, the form's rank, whether `zero_tensor`
is a real `tensor.zero` (a tensor was supplied) or the no-op `lambda: None`
(the tensor was freshly allocated), the loop-collection flag, and the
result matrix's block shape (rank 2 only; unused otherwise). -/
structure ThunkCtx where
  kernels : List SplitKernel
  domains : List Mesh
  rank : Nat
  zero_real : Bool
  collect_loops : Bool
  block_shape : Nat × Nat
deriving DecidableEq, Repr

/-- Lines 399-405: unpack the kernel's block indices according to the form's
rank (`i, j = indices` / `i, = indices` / `assert len(indices) == 0`).
Rank-1 and rank-0 kernels get a padding `0` in the unused position. -/
def unpack_indices (rank : Nat) (indices : List Nat) : Except AsmError (Nat × Nat) :=
  if rank == 2 then
    match indices with
    | [i, j] => .ok (i, j)
    | _ => .error (.valueError "cannot unpack kernel block indices")
  else if rank == 1 then
    match indices with
    | [i] => .ok (i, 0)
    | _ => .error (.valueError "cannot unpack kernel block indices")
  else
    match indices with
    | [] => .ok (0, 0)
    | _ => .error (.runtimeError "AssertionError: len(indices) == 0")

/-- Lines 414-427: the boundary conditions threaded into the test and trial
maps of the current block.  For a mixed rank-2 target (`block_shape >
(1, 1)`, Python tuple order) the conditions are filtered to those whose
space resolves to block row `i` / block column `j`; for a non-mixed rank-2
target they are passed through unfiltered; other ranks use none.  Iterating
`bcs` when it is `None` is the source's own `TypeError`. -/
def filter_bcs (ctx : ThunkCtx) (bcs : Option (List DirichletBC)) (i j : Nat) :
    Except AsmError (Option (List DirichletBC) × Option (List DirichletBC)) :=
  if ctx.rank == 2 && tupleGT ctx.block_shape (1, 1) then
    match bcs with
    | none => .error (.runtimeError "TypeError: NoneType object is not iterable")
    | some bl =>
        .ok (some (bl.filter (fun bc => resolvedIndex bc.function_space == some i)),
             some (bl.filter (fun bc => resolvedIndex bc.function_space == some j)))
  else if ctx.rank == 2 then
    .ok (bcs, bcs)
  else
    .ok (none, none)

/-- Lines 436-485: compute the iteration set and the extruded iteration
region for one kernel.  The iteration set is `measure_set` (line 436),
overridden by cell subdomain data when present (line 439); combining
subdomain data with an explicit subdomain id is an error (lines 441-443);
an integral type that matches none of the recognised branches is the
`ValueError` of line 485, naming the offending kind. -/
def kernel_itspace (m : Mesh) (kinfo : KInfo) (all_ids : List SubdomainId) :
    Except AsmError (List Entity × Option Region) :=
  let sdata := m.sdataFor kinfo.integral_type
  let itspace := measure_set m kinfo.integral_type kinfo.subdomain_id all_ids
  match kinfo.integral_type with
  | "cell" =>
    let itspace := match sdata with
      | some s => s
      | none => itspace
    if (kinfo.subdomain_id != SubdomainId.otherwise
          && kinfo.subdomain_id != SubdomainId.everywhere)
        && sdata.isSome then
      .error (.valueError "Cannot use subdomain data and subdomain_id")
    else
      .ok (itspace, none)
  | "exterior_facet" => .ok (itspace, none)
  | "exterior_facet_vert" => .ok (itspace, none)
  | "exterior_facet_top" => .ok (itspace, some Region.ON_TOP)
  | "exterior_facet_bottom" => .ok (itspace, some Region.ON_BOTTOM)
  | "interior_facet" => .ok (itspace, none)
  | "interior_facet_vert" => .ok (itspace, none)
  | "interior_facet_horiz" => .ok (itspace, some Region.ON_INTERIOR_FACETS)
  | t => .error (.valueError ("Unknown integral type " ++ quoteS t))

/-- The integral types the engine recognises (the branches of lines 264-282
and 438-485). -/
def recognized (t : String) : Bool :=
  t == "cell" || t == "exterior_facet" || t == "interior_facet"
    || t == "exterior_facet_bottom" || t == "exterior_facet_top"
    || t == "exterior_facet_vert" || t == "interior_facet_horiz"
    || t == "interior_facet_vert"

/-- Lines 396-519: process one kernel of the loop body — look up its
integration domain (line 397), unpack its block indices (399-405), fetch and
check subdomain data (407-409), filter the boundary conditions for its block
(414-427), compute its iteration set and region (436-485), check the
cell-facet assertion (509), and produce the `par_loop` to issue (515-517).
The construction of coordinate/coefficient/orientation arguments is external
(pyop2 data carriers) and is not modelled; the `MapValueError` rewrap at
lines 518-519 is likewise a condition of the external map objects. -/
def processKernel (ctx : ThunkCtx) (bcs : Option (List DirichletBC)) (idx : Nat)
    (k : SplitKernel) : Except AsmError Op :=
  match ctx.domains[k.kinfo.domain_number]? with
  | none => .error (.runtimeError "IndexError: list index out of range")
  | some m =>
    match unpack_indices ctx.rank k.indices with
    | .error e => .error e
    | .ok (i, j) =>
      if k.kinfo.integral_type != "cell" && (m.sdataFor k.kinfo.integral_type).isSome then
        .error (.notImplementedError "subdomain_data only supported with cell integrals.")
      else
        match filter_bcs ctx bcs i j with
        | .error e => .error e
        | .ok (tsbc, trbc) =>
          match kernel_itspace m k.kinfo
              (all_integer_subdomain_ids ctx.kernels k.kinfo.integral_type) with
          | .error e => .error e
          | .ok (its, iterate) =>
            if k.kinfo.needs_cell_facets && k.kinfo.integral_type != "cell" then
              .error (.runtimeError "AssertionError: integral_type == cell")
            else
              .ok (.parLoop idx its iterate tsbc trbc)

/-- The `for ... in kernels` loop of line 396: kernels are processed in list
order; a failing kernel issues nothing and aborts the loop. -/
def kernelLoop (ctx : ThunkCtx) (bcs : Option (List DirichletBC)) :
    Nat → List SplitKernel → Outcome Unit
  | _, [] => skip
  | idx, k :: ks =>
    match processKernel ctx bcs idx k with
    | .error e => failE e
    | .ok op => seqA (emitOp op) (kernelLoop ctx bcs (idx + 1) ks)

/-- Lines 535-557: the diagonal-entry loop body for one boundary condition at
block `(i, j)` — skip off-diagonal blocks, then set diagonal entries only in
the block whose top-level index matches the condition's owning space. -/
def set_diag_cell (bc : DirichletBC) (i j : Nat) : Outcome Unit :=
  if i != j then skip
  else if bc.function_space.component == none && bc.function_space.index != none then
    -- Mixed, index (no ComponentFunctionSpace)
    if bc.function_space.index == some i then
      emitOp (.setDiag i j bc.nodes none)
    else skip
  else if bc.function_space.component != none then
    -- ComponentFunctionSpace, check parent index
    if bc.function_space.parent_index != none
        && bc.function_space.parent_index != some i then
      skip
    else
      emitOp (.setDiag i j bc.nodes bc.function_space.component)
  else if bc.function_space.index == none then
    emitOp (.setDiag i j bc.nodes none)
  else
    failE (.runtimeError "Unhandled BC case")

/-- The inner `for j in range(shape[1])` loop of line 536. -/
def set_diag_j (bc : DirichletBC) (i : Nat) : List Nat → Outcome Unit
  | [] => skip
  | j :: js => seqA (set_diag_cell bc i j) (set_diag_j bc i js)

/-- The outer `for i in range(shape[0])` loop of line 535. -/
def set_diag_i (bc : DirichletBC) (js : List Nat) : List Nat → Outcome Unit
  | [] => skip
  | i :: rest => seqA (set_diag_j bc i js) (set_diag_i bc js rest)

/-- Lines 533-557: the double block loop setting diagonal entries for one
boundary condition. -/
def set_diag_for_bc (shape : Nat × Nat) (bc : DirichletBC) : Outcome Unit :=
  set_diag_i bc (List.range shape.2) (List.range shape.1)

/-- Lines 525-557: apply one boundary condition to a rank-2 target.  The
condition's nodes are evaluated first (an external computation issuing no
modelled operation); a condition on a full (un-indexed) mixed space — more
than one top-level subspace — is the `RuntimeError` of line 532, raised
before any diagonal entry is set for this condition. -/
def apply_bc_mat (shape : Nat × Nat) (bc : DirichletBC) : Outcome Unit :=
  if bc.function_space.nspaces > 1 then
    failE (.runtimeError
      "Cannot apply boundary conditions to full mixed space. Did you forget to index it?")
  else
    set_diag_for_bc shape bc

/-- The `for bc in bcs` loop of line 525. -/
def apply_bcs_mat (shape : Nat × Nat) : List DirichletBC → Outcome Unit
  | [] => skip
  | bc :: rest => seqA (apply_bc_mat shape bc) (apply_bcs_mat shape rest)

/-- Lines 558-562: boundary conditions on a rank-1 target.  With a non-empty
condition list in loop-collection mode this is the `NotImplementedError` of
line 560; otherwise each condition's `apply` runs in list order. -/
def vec_bc_stage (ctx : ThunkCtx) (bl : List DirichletBC) : Outcome Unit :=
  if bl.length > 0 && ctx.collect_loops then
    failE (.notImplementedError "Loop collection not handled in this case")
  else
    (.ok (), (List.range bl.length).map Op.bcApply)

/-- Lines 524-562: the boundary-condition stage of the thunk, run strictly
after all kernel accumulations. -/
def bc_stage (ctx : ThunkCtx) (bcs : Option (List DirichletBC)) : Outcome Unit :=
  match bcs with
  | none => skip
  | some bl =>
      seqA (if ctx.rank == 2 then apply_bcs_mat ctx.block_shape bl else skip)
        (if ctx.rank == 1 then vec_bc_stage ctx bl else skip)

/-- Lines 391-566: the deferred-assembly closure.  One invocation issues the
`zero_tensor` step (line 392-395; a real zeroing only when a caller tensor
was supplied, the no-op `lambda: None` otherwise), then one `par_loop` per
kernel in list order, then the boundary-condition stage, then — for a rank-2
target — the final `tensor.assemble()` (line 565). -/
def thunk (ctx : ThunkCtx) (bcs : Option (List DirichletBC)) : Outcome Unit :=
  seqA (emitOp (.zero ctx.zero_real))
    (seqA (kernelLoop ctx bcs 0 ctx.kernels)
      (seqA (bc_stage ctx bcs)
        (if ctx.rank == 2 then emitOp Op.matAssemble else skip)))

/-- Modelled from the spec: the global default configuration read at lines
183/187 lives in `firedrake.parameters`, not under `src/`.  The concrete
default values are irrelevant to the claims (which pass explicit types);
any member of the recognised type lists would do. -/
def parameters_default_matrix_type : String := "aij"

/-- Modelled from the spec: see `parameters_default_matrix_type`. -/
def parameters_default_sub_matrix_type : String := "aij"

/-- Line 202: `raise NotImplementedError(...)` for a domain on a different
topology. -/
def domains_topology_error : AsmError :=
  .notImplementedError "All integration domains must share a mesh topology."

/-- Line 208: `raise NotImplementedError(...)` for an argument or coefficient
on a different topology. -/
def meshes_topology_error : AsmError :=
  .notImplementedError "Assembly with multiple meshes not supported."

/-- The `for m in f.ufl_domains()` loop of lines 198-203. -/
def check_all_domains (topo : Nat) : List Mesh → Except AsmError Unit
  | [] => .ok ()
  | m :: ms =>
    if m.topology != topo then .error domains_topology_error
    else check_all_domains topo ms

/-- The `for o in chain(f.arguments(), f.coefficients())` loop of lines
205-208; entries with no domain (`None`) are skipped. -/
def check_all_objects (topo : Nat) : List (Option Nat) → Except AsmError Unit
  | [] => .ok ()
  | none :: rest => check_all_objects topo rest
  | some t :: rest =>
    if t != topo then .error meshes_topology_error
    else check_all_objects topo rest

/-- Lines 197-208: every integration domain, argument and coefficient must
share the topology of the first integration domain.  An empty domain list is
the source's own `IndexError` at line 197. -/
def check_mesh_consistency (f : Form) : Except AsmError Unit :=
  match f.domains with
  | [] => .error (.runtimeError "IndexError: list index out of range")
  | m0 :: _ =>
    match check_all_domains m0.topology f.domains with
    | .error e => .error e
    | .ok _ =>
        check_all_objects m0.topology
          (f.arguments.map FunctionSpace.topology
            ++ f.coefficients.map Coefficient.topology)

/-- Whether the form's integration domains, arguments and coefficients all
share the topology of the first integration domain — the property checked by
lines 197-208. -/
def topologies_agree (f : Form) : Bool :=
  match f.domains with
  | [] => false
  | m0 :: _ =>
    f.domains.all (fun m => m.topology == m0.topology)
      && (f.arguments.map FunctionSpace.topology
            ++ f.coefficients.map Coefficient.topology).all
          (fun d => match d with
            | some t => t == m0.topology
            | none => true)

/-- The check of lines 222-224: does some coefficient live on a subscripted
(component) function space? -/
def has_subscripted_coefficient (f : Form) : Bool :=
  f.coefficients.any (fun c =>
    (c.function_space.map (fun fs => fs.component.isSome)).getD false)

/-- Lines 182-189 and 197-208: resolve and validate the matrix types, then
check mesh consistency.  Everything before the external form compiler is
invoked (line 214). -/
def assemble_precheck (f : Form) (mat_type sub_mat_type : Option String) :
    Except AsmError (String × String) :=
  let mt := mat_type.getD parameters_default_matrix_type
  if !(["matfree", "aij", "baij", "nest"].contains mt) then
    .error (.valueError ("Unrecognised matrix type, " ++ quoteS mt))
  else
    let smt := sub_mat_type.getD parameters_default_sub_matrix_type
    if !(["aij", "baij"].contains smt) then
      .error (.valueError ("Invalid submatrix type, " ++ quoteS smt
        ++ " (not " ++ quoteS "aij" ++ " or " ++ quoteS "baij" ++ ")"))
    else
      match check_mesh_consistency f with
      | .error e => .error e
      | .ok _ => .ok (mt, smt)

/-- Lines 259-282: classify the integral types present in the form into the
cell / exterior-facet / interior-facet map domains used to build the
sparsity, in encounter order; an unrecognised type is the `ValueError` of
line 282 (note the double-quoted `"%s"`), naming the offending kind. -/
def classify_integral_domains :
    List String → List Region × List Region × List Region →
    Except AsmError (List Region × List Region × List Region)
  | [], acc => .ok acc
  | t :: ts, (cd, ed, idm) =>
    match t with
    | "cell" =>
      classify_integral_domains ts (cd ++ [Region.ALL], ed, idm)
    | "exterior_facet" =>
      classify_integral_domains ts (cd, ed ++ [Region.ALL], idm)
    | "interior_facet" =>
      classify_integral_domains ts (cd, ed, idm ++ [Region.ALL])
    | "exterior_facet_bottom" =>
      classify_integral_domains ts (cd ++ [Region.ON_BOTTOM], ed, idm)
    | "exterior_facet_top" =>
      classify_integral_domains ts (cd ++ [Region.ON_TOP], ed, idm)
    | "exterior_facet_vert" =>
      classify_integral_domains ts (cd, ed ++ [Region.ALL], idm)
    | "interior_facet_horiz" =>
      classify_integral_domains ts (cd ++ [Region.ON_INTERIOR_FACETS], ed, idm)
    | "interior_facet_vert" =>
      classify_integral_domains ts (cd, ed, idm ++ [Region.ALL])
    | u =>
      .error (.valueError ("Unknown integral type " ++ quoteD u))

/-- An `op2.DecoratedMap` over a node map of one argument space (lines
290-297), reduced to the data the sparsity records: which space, which map
accessor, and the iteration-region decorations. -/
structure DecoratedMap where
  space : String
  family : String
  domains : List Region
deriving DecidableEq, Repr

/-- Lines 289-299: the decorated test/trial map pairs handed to the sparsity
builder, one pair per non-empty map domain class. -/
def build_map_pairs (test trial : FunctionSpace)
    (cd ed idm : List Region) : List (DecoratedMap × DecoratedMap) :=
  (if cd != [] then
    [(⟨test.name, "cell_node_map", cd⟩, ⟨trial.name, "cell_node_map", cd⟩)]
   else []) ++
  (if ed != [] then
    [(⟨test.name, "exterior_facet_node_map", ed⟩,
      ⟨trial.name, "exterior_facet_node_map", ed⟩)]
   else []) ++
  (if idm != [] then
    [(⟨test.name, "interior_facet_node_map", idm⟩,
      ⟨trial.name, "interior_facet_node_map", idm⟩)]
   else [])

/-- The nonzero structure built for a matrix target. -/
structure Sparsity where
  shape : Nat × Nat
  map_pairs : List (DecoratedMap × DecoratedMap)
  name : String
  nest : Bool
  block_sparse : Bool
deriving DecidableEq, Repr

/-- Modelled from the spec: `op2.Sparsity` (lines 304-309) is pyop2 code,
not under `src/`.  Per the sparsity-builder contract, block-sparse storage
(one stored value per vector component of a node) is invalid when any block
corresponds to a space whose nodes are not uniformly blockable (e.g.
"R"-type spaces): construction then raises `SparsityFormatError`, modelled
here as the `error` case.  Otherwise the sparsity records the block shape of
the space pair and the decorated map pairs. -/
def op2_Sparsity (test trial : FunctionSpace)
    (map_pairs : List (DecoratedMap × DecoratedMap)) (name : String)
    (nest block_sparse : Bool) : Except Unit Sparsity :=
  if block_sparse && (test.subs ++ trial.subs).any (fun s => !s.blockable) then
    .error ()
  else
    .ok ⟨(test.subs.length, trial.subs.length), map_pairs, name, nest, block_sparse⟩

/-- A `matrix.Matrix` (or `matrix.ImplicitMatrix` when `implicit`), reduced
to the fields the assembly engine reads and writes: its attached
boundary-condition set (re-pointed at line 323), its block shape (lines
327/414/533) and whether it is an implicit (matrix-free) matrix. -/
structure MatrixT where
  bcs : Option (List DirichletBC)
  block_shape : Nat × Nat
  implicit : Bool
deriving DecidableEq, Repr

/-- A caller-supplied target tensor: a matrix for rank-2 forms or a
`Function` for rank-1 forms. -/
inductive Tensor
  | mat (m : MatrixT)
  | func (space : FunctionSpace)
deriving DecidableEq, Repr

/-- The value `_assemble` returns: a scalar (rank 0), a `Function` (rank 1,
`fresh` when newly created), a `Matrix` carrying its deferred assembly
callback (the thunk context, `none` when `allocate_only` cleared it, line
338), an `ImplicitMatrix`, or — in loop-collection mode — the collected
loops themselves (line 570). -/
inductive AsmRes
  | scalarRes
  | funcRes (fresh : Bool)
  | matRes (m : MatrixT) (assembly_callback : Option ThunkCtx)
  | implicitRes (m : MatrixT)
  | loopsRes (loops : List Op)
deriving DecidableEq, Repr

/-- How the setup phase (lines 217-389) hands over to the tail of
`_assemble` (lines 568-575): an early return (`done`: matrix-free and
`allocate_only` paths), a rank-2 target whose thunk is stashed as the
matrix's assembly callback (`deferred`, line 572), or a rank-0/1 target
whose thunk runs within the call itself (`immediate`, line 575). -/
inductive SetupOutcome
  | done (r : AsmRes)
  | deferred (m : MatrixT) (ctx : ThunkCtx)
  | immediate (ctx : ThunkCtx) (res : AsmRes)
deriving DecidableEq, Repr

/-- The result of the setup phase: the allocation operations it issued and
the outcome handed to the tail of `_assemble`. -/
structure Setup where
  pre_ops : List Op
  outcome : SetupOutcome
deriving DecidableEq, Repr

/-- Lines 327-339: the common tail of the two rank-2 paths once
`result_matrix` is in hand — reject `baij` for mixed block shapes, return
early under `allocate_only` with the assembly callback cleared, and
otherwise hand the matrix and its thunk context to the tail of
`_assemble`. -/
def finish_mat (f : Form) (mt : String) (collect_loops allocate_only : Bool)
    (result_matrix : MatrixT) (zero_real : Bool) (pre_ops : List Op) :
    Except AsmError Setup :=
  if result_matrix.block_shape != (1, 1) && mt == "baij" then
    .error (.valueError ("BAIJ matrix type makes no sense for mixed spaces, use "
      ++ quoteS "aij"))
  else if allocate_only then
    .ok ⟨pre_ops, .done (.matRes result_matrix none)⟩
  else
    .ok ⟨pre_ops,
      .deferred result_matrix
        ⟨f.kernels, f.domains, 2, zero_real, collect_loops,
          result_matrix.block_shape⟩⟩

/-- Lines 210-389 of `_assemble`: everything between the (external) form
compiler invocation and the tail that runs or stashes the thunk.  Classifies
the form by rank, performs the rank-specific validation, allocates or reuses
the target tensor (recording the allocations in `pre_ops`), and determines
whether the thunk is deferred (rank 2), immediate (rank 0/1), or bypassed
(matrix-free / `allocate_only`). -/
def assemble_setup (f : Form) (tensor : Option Tensor)
    (bcs : Option (List DirichletBC)) (inverse : Bool) (mt smt : String)
    (collect_loops allocate_only : Bool) : Except AsmError Setup :=
  -- line 217
  let rank := f.arguments.length
  -- lines 222-224
  if has_subscripted_coefficient f then
    .error (.notImplementedError "Integration of subscripted VFS not yet implemented")
  -- lines 226-227
  else if inverse && rank != 2 then
    .error (.valueError "Can only assemble the inverse of a 2-form")
  else if rank == 2 then
    match f.arguments with
    | [test, trial] =>
      -- lines 232-237
      let matfree := mt == "matfree"
      let nest := mt == "nest"
      let baij := if nest then smt == "baij" else mt == "baij"
      if matfree then
        -- lines 238-251
        if inverse then
          .error (.notImplementedError "Inverse not implemented with matfree")
        else if collect_loops then
          .error (.notImplementedError ("Can" ++ sq ++ "t collect loops with matfree"))
        else
          match tensor with
          | none =>
              .ok ⟨[], .done (.implicitRes
                ⟨bcs, (test.subs.length, trial.subs.length), true⟩)⟩
          | some (.mat m) =>
              if !m.implicit then
                .error (.valueError "Expecting implicit matrix with matfree")
              else
                .ok ⟨[Op.implicitAssemble], .done (.implicitRes m)⟩
          | some _ =>
              .error (.valueError "Expecting implicit matrix with matfree")
      else
        match tensor with
        | none =>
          -- lines 258-316: build the sparsity and allocate a fresh matrix;
          -- zero_tensor stays the no-op lambda of line 229.
          match classify_integral_domains f.integral_types ([], [], []) with
          | .error e => .error e
          | .ok (cd, ed, idm) =>
            match op2_Sparsity test trial (build_map_pairs test trial cd ed idm)
                (test.name ++ "_" ++ trial.name ++ "_sparsity") nest baij with
            | .error _ =>
                -- lines 310-311
                .error (.valueError
                  "Monolithic matrix assembly is not supported for systems with R-space blocks.")
            | .ok sp =>
                finish_mat f mt collect_loops allocate_only
                  ⟨bcs, sp.shape, false⟩ false [Op.allocSparsity, Op.allocMatrix]
        | some (.mat m) =>
          -- lines 317-325: reuse the supplied tensor, re-pointing its bcs;
          -- zero_tensor becomes the tensor's real zero method.
          if m.implicit then
            .error (.valueError "Expecting matfree with implicit matrix")
          else
            finish_mat f mt collect_loops allocate_only
              { m with bcs := bcs } true []
        | some (.func _) =>
          -- a non-matrix tensor has no `_M`: the source's own AttributeError
          .error (.runtimeError "AttributeError: no attribute _M")
    | _ => .error (.runtimeError "unreachable: rank 2 with arguments not a pair")
  else if rank == 1 then
    -- lines 340-353
    match tensor with
    | none =>
        .ok ⟨[Op.allocFunction],
          .immediate ⟨f.kernels, f.domains, 1, false, collect_loops, (1, 1)⟩
            (.funcRes true)⟩
    | some (.func _) =>
        .ok ⟨[],
          .immediate ⟨f.kernels, f.domains, 1, true, collect_loops, (1, 1)⟩
            (.funcRes false)⟩
    | some (.mat _) =>
        -- a matrix has no `.dat`: the source's own AttributeError
        .error (.runtimeError "AttributeError: no attribute dat")
  else
    -- lines 354-360: 0-forms are always scalar
    match tensor with
    | none =>
        .ok ⟨[Op.allocGlobal],
          .immediate ⟨f.kernels, f.domains, rank, false, collect_loops, (1, 1)⟩
            .scalarRes⟩
    | some _ =>
        .error (.valueError ("Can" ++ sq ++ "t assemble 0-form into existing tensor"))

/-- Lines 153-575: the assembly engine.  Returns the result (or first error)
together with the list of operations executed during this call.  The
prechecks (182-208) run before the external form compiler (`compileForm`,
line 214); the setup phase allocates or reuses the target; the tail
(568-575) then: in loop-collection mode runs the thunk once in collection
mode and returns the collected loops; for a rank-2 target stashes the thunk
as the matrix's assembly callback *without running it*; and otherwise runs
the thunk synchronously and returns the result. -/
def _assemble (f : Form) (tensor : Option Tensor)
    (bcs : Option (List DirichletBC)) (inverse : Bool)
    (mat_type sub_mat_type : Option String)
    (collect_loops allocate_only : Bool) : Outcome AsmRes :=
  match assemble_precheck f mat_type sub_mat_type with
  | .error e => (.error e, [])
  | .ok (mt, smt) =>
    match assemble_setup f tensor bcs inverse mt smt collect_loops allocate_only with
    | .error e => (.error e, [Op.compileForm])
    | .ok s =>
      match s.outcome with
      | .done r => (.ok r, Op.compileForm :: s.pre_ops)
      | .deferred m ctx =>
        if collect_loops then
          match thunk ctx bcs with
          | (.error e, _) => (.error e, Op.compileForm :: s.pre_ops)
          | (.ok _, lps) => (.ok (.loopsRes lps), Op.compileForm :: s.pre_ops)
        else
          (.ok (.matRes m (some ctx)), Op.compileForm :: s.pre_ops)
      | .immediate ctx res =>
        if collect_loops then
          match thunk ctx bcs with
          | (.error e, _) => (.error e, Op.compileForm :: s.pre_ops)
          | (.ok _, lps) => (.ok (.loopsRes lps), Op.compileForm :: s.pre_ops)
        else
          match thunk ctx bcs with
          | (.error e, ops) => (.error e, (Op.compileForm :: s.pre_ops) ++ ops)
          | (.ok _, ops) => (.ok res, (Op.compileForm :: s.pre_ops) ++ ops)

/-- Lines 24-107: the public entry point for forms.  `solving._extract_bcs`
turns a missing boundary-condition list into the empty tuple before calling
`_assemble`. -/
def assemble (f : Form) (tensor : Option Tensor)
    (bcs : Option (List DirichletBC)) (inverse : Bool)
    (mat_type sub_mat_type : Option String)
    (collect_loops allocate_only : Bool) : Outcome AsmRes :=
  _assemble f tensor (some (bcs.getD [])) inverse mat_type sub_mat_type
    collect_loops allocate_only

/-! ### Concrete example data used by counterexamples and witnesses -/

/-- A one-cell mesh on topology 0 with no tags and no subdomain data. -/
def mesh0 : Mesh := ⟨0, [("cell", [⟨0, none⟩])], []⟩

/-- A one-cell mesh on a different topology. -/
def mesh1 : Mesh := ⟨1, [("cell", [⟨0, none⟩])], []⟩

/-- A plain non-mixed blockable function space on topology 0. -/
def exV : FunctionSpace := ⟨"V", none, none, none, [⟨true⟩], some 0⟩

/-- A space whose single block is not uniformly blockable (an R-type space). -/
def exRspace : FunctionSpace := ⟨"R", none, none, none, [⟨false⟩], some 0⟩

/-- A rank-2 cell kernel writing block (0, 0). -/
def exKCell : SplitKernel := ⟨[0, 0], ⟨"cell", .otherwise, 0, [], false, false, false⟩⟩

/-- A rank-1 cell kernel writing block 0. -/
def exKCell1 : SplitKernel := ⟨[0], ⟨"cell", .otherwise, 0, [], false, false, false⟩⟩

/-- A rank-1 kernel with an unrecognised integral type. -/
def exKBad : SplitKernel := ⟨[0], ⟨"weird", .otherwise, 0, [], false, false, false⟩⟩

/-- A rank-2 form with one cell kernel over `mesh0`. -/
def exForm2 : Form := ⟨[exV, exV], [], [mesh0], ["cell"], [exKCell]⟩

/-- A rank-2 form whose trial space has a non-blockable block. -/
def exFormR : Form := ⟨[exV, exRspace], [], [mesh0], ["cell"], [exKCell]⟩

/-- A rank-1 form whose second kernel has an unrecognised integral type. -/
def exForm1Bad : Form := ⟨[exV], [], [mesh0], ["cell", "weird"], [exKCell1, exKBad]⟩

/-- A rank-1 form whose integration domains live on two different
topologies. -/
def exFormMM : Form := ⟨[exV], [], [mesh0, mesh1], ["cell"], [exKCell1]⟩

/-- The thunk context of a freshly allocated rank-2 assembly of `exForm2`
(`zero_real = false`: the zero step is the no-op `lambda: None`). -/
def exCtx2 : ThunkCtx := ⟨[exKCell], [mesh0], 2, false, false, (1, 1)⟩

/-- The thunk context of a rank-1 assembly of `exForm1Bad`. -/
def exCtxW : ThunkCtx := ⟨[exKCell1, exKBad], [mesh0], 1, false, false, (1, 1)⟩

/-- The matrix freshly allocated for `exForm2`. -/
def exFreshMat : MatrixT := ⟨some [], (1, 1), false⟩

/-- The thunk context stashed on the matrix freshly allocated for
`exForm2`. -/
def exCtxF : ThunkCtx := ⟨exForm2.kernels, exForm2.domains, 2, false, false, (1, 1)⟩

/-- A caller-supplied matrix whose block shape (5, 7) matches no block shape
`exForm2` could produce. -/
def exBadMat : MatrixT := ⟨some [], (5, 7), false⟩

/-- A boundary condition on an indexed component subspace with top-level
mixed index 1. -/
def exBC : DirichletBC := ⟨⟨"W0", some 1, none, none, [⟨true⟩], some 0⟩, [3, 4]⟩

/-- A boundary condition on a full (un-indexed) mixed space with two
top-level subspaces. -/
def exBCmixed : DirichletBC := ⟨⟨"W", none, none, none, [⟨true⟩, ⟨true⟩], some 0⟩, [1]⟩

def eA : Entity := ⟨1, none⟩
def eB : Entity := ⟨2, none⟩
def eC : Entity := ⟨3, none⟩

/-- A mesh whose cell set is `[eA, eB]` but which carries cell subdomain
data `[eC]`. -/
def meshC : Mesh := ⟨0, [("cell", [eA, eB])], [("cell", [eC])]⟩

/-- A rank-1 thunk context over `meshC` with a single "otherwise" cell
kernel. -/
def exCtxC : ThunkCtx := ⟨[exKCell1], [meshC], 1, false, false, (1, 1)⟩

def e1t : Entity := ⟨1, some 1⟩
def e2t : Entity := ⟨2, some 2⟩
def e3u : Entity := ⟨3, none⟩

/-- A mesh with tagged cells and no subdomain data. -/
def meshT : Mesh := ⟨0, [("cell", [e1t, e2t, e3u])], []⟩

/-- A cell kernel restricted to subdomain tag 1. -/
def kTag1 : SplitKernel := ⟨[0], ⟨"cell", .tag 1, 0, [], false, false, false⟩⟩

/-- An "otherwise" cell kernel in the same form as `kTag1`. -/
def kOtherW : SplitKernel := ⟨[0], ⟨"cell", .otherwise, 0, [], false, false, false⟩⟩

/-- A rank-1 thunk context over `meshT` with a tagged kernel and an
"otherwise" kernel. -/
def exCtxT : ThunkCtx := ⟨[kTag1, kOtherW], [meshT], 1, false, false, (1, 1)⟩

/-! ### Helper lemmas about issued operations -/

theorem mem_seqA {o : Op} {a b : Outcome Unit} (h : o ∈ (seqA a b).2) :
    o ∈ a.2 ∨ o ∈ b.2 := by
  rcases a with ⟨r, ops⟩
  cases r with
  | ok u => simpa [seqA] using h
  | error e => exact Or.inl h

theorem processKernel_ok_isParLoop {ctx : ThunkCtx} {bcs : Option (List DirichletBC)}
    {idx : Nat} {k : SplitKernel} {op : Op}
    (h : processKernel ctx bcs idx k = .ok op) : op.isParLoop = true := by
  unfold processKernel at h
  repeat' split at h
  all_goals simp_all [Op.isParLoop]
  all_goals (subst h; rfl)

theorem kernelLoop_mem_isParLoop (ctx : ThunkCtx) (bcs : Option (List DirichletBC)) :
    ∀ (ks : List SplitKernel) (idx : Nat) (o : Op),
      o ∈ (kernelLoop ctx bcs idx ks).2 → o.isParLoop = true := by
  intro ks
  induction ks with
  | nil => intro idx o ho; simp [kernelLoop, skip] at ho
  | cons k ks ih =>
    intro idx o ho
    unfold kernelLoop at ho
    split at ho
    · simp [failE] at ho
    · rename_i op hop
      rcases mem_seqA ho with h | h
      · simp [emitOp] at h
        subst h
        exact processKernel_ok_isParLoop hop
      · exact ih _ _ h

theorem set_diag_cell_mem_isSetDiag {bc : DirichletBC} {i j : Nat} {o : Op}
    (ho : o ∈ (set_diag_cell bc i j).2) : o.isSetDiag = true := by
  unfold set_diag_cell at ho
  split_ifs at ho <;> simp_all [emitOp, skip, failE] <;> simp [Op.isSetDiag]

theorem set_diag_j_mem_isSetDiag {bc : DirichletBC} {i : Nat} {o : Op} :
    ∀ js : List Nat, o ∈ (set_diag_j bc i js).2 → o.isSetDiag = true := by
  intro js
  induction js with
  | nil => intro ho; simp [set_diag_j, skip] at ho
  | cons j js ih =>
    intro ho
    rcases mem_seqA ho with h | h
    · exact set_diag_cell_mem_isSetDiag h
    · exact ih h

theorem set_diag_i_mem_isSetDiag {bc : DirichletBC} {js : List Nat} {o : Op} :
    ∀ il : List Nat, o ∈ (set_diag_i bc js il).2 → o.isSetDiag = true := by
  intro il
  induction il with
  | nil => intro ho; simp [set_diag_i, skip] at ho
  | cons i il ih =>
    intro ho
    rcases mem_seqA ho with h | h
    · exact set_diag_j_mem_isSetDiag _ h
    · exact ih h

theorem apply_bc_mat_mem_isSetDiag {shape : Nat × Nat} {bc : DirichletBC} {o : Op}
    (ho : o ∈ (apply_bc_mat shape bc).2) : o.isSetDiag = true := by
  unfold apply_bc_mat at ho
  split_ifs at ho
  · simp [failE] at ho
  · exact set_diag_i_mem_isSetDiag _ ho

theorem apply_bcs_mat_mem_isSetDiag {shape : Nat × Nat} {o : Op} :
    ∀ bl : List DirichletBC, o ∈ (apply_bcs_mat shape bl).2 → o.isSetDiag = true := by
  intro bl
  induction bl with
  | nil => intro ho; simp [apply_bcs_mat, skip] at ho
  | cons bc bl ih =>
    intro ho
    rcases mem_seqA ho with h | h
    · exact apply_bc_mat_mem_isSetDiag h
    · exact ih h

theorem bc_stage_mem_not_zero {ctx : ThunkCtx} {bcs : Option (List DirichletBC)}
    {o : Op} (ho : o ∈ (bc_stage ctx bcs).2) : o.isZero = false := by
  unfold bc_stage at ho
  split at ho
  · simp [skip] at ho
  · rcases mem_seqA ho with h | h
    · split at h
      · have := apply_bcs_mat_mem_isSetDiag _ h
        cases o <;> simp_all [Op.isSetDiag, Op.isZero]
      · simp [skip] at h
    · split at h
      · unfold vec_bc_stage at h
        split_ifs at h
        · simp [failE] at h
        · simp at h
          obtain ⟨b, -, hb⟩ := h
          subst hb
          rfl
      · simp [skip] at h

/-- The operation list of one thunk invocation starts with the
`zero_tensor` step. -/
theorem thunk_trace (ctx : ThunkCtx) (bcs : Option (List DirichletBC)) :
    (thunk ctx bcs).2
      = Op.zero ctx.zero_real
        :: (seqA (kernelLoop ctx bcs 0 ctx.kernels)
              (seqA (bc_stage ctx bcs)
                (if ctx.rank == 2 then emitOp Op.matAssemble else skip))).2 := rfl

theorem thunk_tail_no_zero {ctx : ThunkCtx} {bcs : Option (List DirichletBC)} {o : Op}
    (ho : o ∈ (seqA (kernelLoop ctx bcs 0 ctx.kernels)
        (seqA (bc_stage ctx bcs)
          (if ctx.rank == 2 then emitOp Op.matAssemble else skip))).2) :
    o.isZero = false := by
  rcases mem_seqA ho with h | h
  · have := kernelLoop_mem_isParLoop ctx bcs _ _ _ h
    cases o <;> simp_all [Op.isParLoop, Op.isZero]
  · rcases mem_seqA h with h | h
    · exact bc_stage_mem_not_zero h
    · split at h
      · simp [emitOp] at h
        subst h
        rfl
      · simp [skip] at h

/-! ### Sorting the declared subdomain ids preserves which tags they declare -/

theorem insertSorted_any (p : SubdomainId → Bool) (a : SubdomainId) :
    ∀ l : List SubdomainId, (insertSorted a l).any p = (p a || l.any p) := by
  intro l
  induction l with
  | nil => simp [insertSorted]
  | cons b bs ih =>
    unfold insertSorted
    split
    · simp [List.any_cons]
    · simp only [List.any_cons, ih]
      rw [Bool.or_left_comm]

theorem sortSubdomainIds_any (p : SubdomainId → Bool) :
    ∀ l : List SubdomainId, (sortSubdomainIds l).any p = l.any p := by
  intro l
  induction l with
  | nil => rfl
  | cons a rest ih =>
    simp only [sortSubdomainIds, insertSorted_any, ih, List.any_cons]

/-! ### The integral-type classifier on unknown kinds -/

theorem classify_unknown (t : String) (hrec : recognized t = false) :
    ∀ pre : List String, (∀ x ∈ pre, recognized x = true) →
      ∀ (post : List String) (acc : List Region × List Region × List Region),
        classify_integral_domains (pre ++ t :: post) acc
          = .error (.valueError ("Unknown integral type " ++ quoteD t)) := by
  have hne := hrec
  simp only [recognized, Bool.or_eq_false_iff, beq_eq_false_iff_ne, ne_eq] at hne
  intro pre
  induction pre with
  | nil =>
    intro _ post acc
    obtain ⟨cd, ed, idm⟩ := acc
    rw [List.nil_append]
    unfold classify_integral_domains
    split <;> simp_all
  | cons x pre ih =>
    intro hpre post acc
    obtain ⟨cd, ed, idm⟩ := acc
    have hx := hpre x (by simp)
    have hrest : ∀ y ∈ pre, recognized y = true :=
      fun y hy => hpre y (List.mem_cons_of_mem _ hy)
    simp only [recognized, Bool.or_eq_true, beq_iff_eq] at hx
    rw [List.cons_append]
    rcases hx with ((((((h | h) | h) | h) | h) | h) | h) | h <;> subst h <;>
      exact ih hrest post _

/-! ### The per-kernel iteration-set dispatch -/

theorem kernel_itspace_unknown (m : Mesh) (kinfo : KInfo)
    (all_ids : List SubdomainId)
    (hrec : recognized kinfo.integral_type = false) :
    kernel_itspace m kinfo all_ids
      = .error (.valueError ("Unknown integral type " ++ quoteS kinfo.integral_type)) := by
  have hne := hrec
  simp only [recognized, Bool.or_eq_false_iff, beq_eq_false_iff_ne, ne_eq] at hne
  unfold kernel_itspace
  split <;> simp_all

theorem kernel_itspace_no_sdata (m : Mesh) (kinfo : KInfo)
    (all_ids : List SubdomainId)
    (hsd : m.sdataFor kinfo.integral_type = none)
    (hrec : recognized kinfo.integral_type = true) :
    ∃ r : Option Region,
      kernel_itspace m kinfo all_ids
        = .ok (measure_set m kinfo.integral_type kinfo.subdomain_id all_ids, r) := by
  simp only [recognized, Bool.or_eq_true, beq_iff_eq] at hrec
  unfold kernel_itspace
  rcases hrec with ((((((h | h) | h) | h) | h) | h) | h) | h <;> rw [h] at hsd ⊢ <;>
    simp [hsd]

theorem processKernel_err_itspace {ctx : ThunkCtx} {bcs : Option (List DirichletBC)}
    {idx : Nat} {k : SplitKernel} {m : Mesh} {i j : Nat}
    {tsbc trbc : Option (List DirichletBC)} {e : AsmError}
    (hdom : ctx.domains[k.kinfo.domain_number]? = some m)
    (hup : unpack_indices ctx.rank k.indices = .ok (i, j))
    (hsd : m.sdataFor k.kinfo.integral_type = none)
    (hf : filter_bcs ctx bcs i j = .ok (tsbc, trbc))
    (hki : kernel_itspace m k.kinfo
        (all_integer_subdomain_ids ctx.kernels k.kinfo.integral_type) = .error e) :
    processKernel ctx bcs idx k = .error e := by
  unfold processKernel
  simp [hdom, hup, hsd, hf, hki]

theorem processKernel_ok_itspace {ctx : ThunkCtx} {bcs : Option (List DirichletBC)}
    {idx : Nat} {k : SplitKernel} {m : Mesh} {i j : Nat}
    {tsbc trbc : Option (List DirichletBC)} {its : List Entity} {r : Option Region}
    (hdom : ctx.domains[k.kinfo.domain_number]? = some m)
    (hup : unpack_indices ctx.rank k.indices = .ok (i, j))
    (hsd : m.sdataFor k.kinfo.integral_type = none)
    (hf : filter_bcs ctx bcs i j = .ok (tsbc, trbc))
    (hki : kernel_itspace m k.kinfo
        (all_integer_subdomain_ids ctx.kernels k.kinfo.integral_type) = .ok (its, r))
    (hcf : ¬(k.kinfo.needs_cell_facets = true ∧ k.kinfo.integral_type ≠ "cell")) :
    processKernel ctx bcs idx k = .ok (.parLoop idx its r tsbc trbc) := by
  unfold processKernel
  simp [hdom, hup, hsd, hf, hki, hcf]

/-! ### The diagonal-entry loop touches only the resolved block -/

theorem set_diag_cell_mem_block {bc : DirichletBC} {k i j : Nat} {o : Op}
    (hres : resolvedIndex bc.function_space = some k)
    (ho : o ∈ (set_diag_cell bc i j).2) :
    o.setDiagBlock = some (k, k) := by
  unfold resolvedIndex at hres
  unfold set_diag_cell at ho
  rcases hcomp : bc.function_space.component with _ | c <;>
    rw [hcomp] at hres ho <;> simp only [Option.isSome] at hres <;>
    split_ifs at ho with h1 h2 h3 h4 h5 <;>
    simp_all [emitOp, skip, failE, Op.setDiagBlock, bne]

theorem set_diag_j_mem_block {bc : DirichletBC} {k i : Nat} {o : Op}
    (hres : resolvedIndex bc.function_space = some k) :
    ∀ js : List Nat, o ∈ (set_diag_j bc i js).2 → o.setDiagBlock = some (k, k) := by
  intro js
  induction js with
  | nil => intro ho; simp [set_diag_j, skip] at ho
  | cons j js ih =>
    intro ho
    rcases mem_seqA ho with h | h
    · exact set_diag_cell_mem_block hres h
    · exact ih h

theorem set_diag_i_mem_block {bc : DirichletBC} {k : Nat} {js : List Nat} {o : Op}
    (hres : resolvedIndex bc.function_space = some k) :
    ∀ il : List Nat, o ∈ (set_diag_i bc js il).2 → o.setDiagBlock = some (k, k) := by
  intro il
  induction il with
  | nil => intro ho; simp [set_diag_i, skip] at ho
  | cons i il ih =>
    intro ho
    rcases mem_seqA ho with h | h
    · exact set_diag_j_mem_block hres _ h
    · exact ih h

theorem apply_bc_mat_mem_block {shape : Nat × Nat} {bc : DirichletBC} {k : Nat} {o : Op}
    (hres : resolvedIndex bc.function_space = some k)
    (ho : o ∈ (apply_bc_mat shape bc).2) : o.setDiagBlock = some (k, k) := by
  unfold apply_bc_mat at ho
  split_ifs at ho
  · simp [failE] at ho
  · exact set_diag_i_mem_block hres _ ho

/-! ### Mesh-consistency checking agrees with `topologies_agree` -/

theorem check_all_domains_ok (topo : Nat) :
    ∀ l : List Mesh,
      check_all_domains topo l = .ok ()
        ↔ l.all (fun m => m.topology == topo) = true := by
  intro l
  induction l with
  | nil => simp [check_all_domains]
  | cons m ms ih =>
    unfold check_all_domains
    split_ifs with h
    · simp only [List.all_cons, Bool.and_eq_true]
      constructor
      · intro hc; exact absurd hc (by simp)
      · intro ⟨h1, _⟩; simp [bne] at h; simp [h] at h1
    · simp only [List.all_cons, Bool.and_eq_true, ih]
      simp [bne] at h
      simp [h]

theorem check_all_objects_ok (topo : Nat) :
    ∀ l : List (Option Nat),
      check_all_objects topo l = .ok ()
        ↔ l.all (fun d => match d with
            | some t => t == topo
            | none => true) = true := by
  intro l
  induction l with
  | nil => simp [check_all_objects]
  | cons d rest ih =>
    cases d with
    | none => simpa [check_all_objects] using ih
    | some t =>
      unfold check_all_objects
      split_ifs with h
      · simp only [List.all_cons, Bool.and_eq_true]
        constructor
        · intro hc; exact absurd hc (by simp)
        · intro ⟨h1, _⟩; simp [bne] at h; simp [h] at h1
      · simp only [List.all_cons, Bool.and_eq_true, ih]
        simp [bne] at h
        simp [h]

theorem check_mesh_ok_iff (f : Form) :
    check_mesh_consistency f = .ok () ↔ topologies_agree f = true := by
  unfold check_mesh_consistency topologies_agree
  rcases hd : f.domains with _ | ⟨m0, rest⟩
  · simp
  · cases hcd : check_all_domains m0.topology (m0 :: rest) with
    | error e =>
      simp only [hcd]
      constructor
      · intro hc; exact absurd hc (by simp)
      · intro hagree
        rw [Bool.and_eq_true] at hagree
        rw [(check_all_domains_ok m0.topology (m0 :: rest)).mpr hagree.1] at hcd
        exact absurd hcd (by simp)
    | ok u =>
      cases u
      simp only [hcd]
      have h1 := (check_all_domains_ok m0.topology (m0 :: rest)).mp hcd
      simp only [Bool.and_eq_true, h1, true_and]
      exact check_all_objects_ok m0.topology _

/-! ### The setup phase issues only allocation operations -/

theorem setup_op_not_parLoop (o : Op) (h : o.isSetupOp = true) :
    o.isParLoop = false := by
  cases o <;> simp_all [Op.isSetupOp, Op.isParLoop]

theorem setup_op_not_setDiag (o : Op) (h : o.isSetupOp = true) :
    o.isSetDiag = false := by
  cases o <;> simp_all [Op.isSetupOp, Op.isSetDiag]

set_option maxHeartbeats 1000000 in
theorem assemble_setup_pre_ops {f : Form} {tensor : Option Tensor}
    {bcs : Option (List DirichletBC)} {inverse : Bool} {mt smt : String}
    {cl ao : Bool} {s : Setup}
    (h : assemble_setup f tensor bcs inverse mt smt cl ao = .ok s) :
    ∀ o ∈ s.pre_ops, o.isSetupOp = true := by
  simp only [assemble_setup, finish_mat] at h
  repeat' split at h
  all_goals try (exact Except.noConfusion h)
  all_goals (injection h with h; subst h; intro o ho; simp at ho)
  all_goals
    first
      | (subst ho; rfl)
      | (rcases ho with ho | ho <;> subst ho <;> rfl)

/-! ### Claim theorems -/

/-- Claim C2 (amended): every invocation of the deferred-assembly thunk
issues the `zero_tensor` step exactly once, as its first operation, before
any kernel accumulation and any other operation; but that step actually
zeroes the tensor (`tensor.zero`) only when the tensor was supplied by the
caller (`ctx.zero_real = true`, lines 325/348) — when the tensor was freshly
allocated by this call, the step is the no-op `lambda: None` of line 229 and
the tensor is not re-zeroed. -/
theorem C2_thm (ctx : ThunkCtx) (bcs : Option (List DirichletBC)) :
    (thunk ctx bcs).2.head? = some (Op.zero ctx.zero_real)
      ∧ (thunk ctx bcs).2.countP Op.isZero = 1 := by
  rw [thunk_trace]
  refine ⟨rfl, ?_⟩
  rw [List.countP_cons]
  have h0 : (seqA (kernelLoop ctx bcs 0 ctx.kernels)
      (seqA (bc_stage ctx bcs)
        (if ctx.rank == 2 then emitOp Op.matAssemble else skip))).2.countP
        Op.isZero = 0 :=
    List.countP_eq_zero.mpr (fun o ho => by simp [thunk_tail_no_zero ho])
  rw [h0]
  simp [Op.isZero]

/-- Claim C2 (counterexample): for the thunk of a freshly allocated rank-2
assembly (`zero_real = false`), one invocation runs a kernel accumulation
but never actually zeroes the tensor — the zero step is the no-op
`lambda: None`, so the target is *not* "zeroed exactly once before the first
kernel accumulation regardless of whether the tensor was freshly allocated
by this call or supplied by the caller". -/
theorem C2_counterexample :
    exCtx2.zero_real = false
      ∧ (thunk exCtx2 (some [])).2.countP Op.isRealZero = 0
      ∧ (thunk exCtx2 (some [])).2.countP Op.isParLoop = 1 := by
  decide

/-- Claim C3 (confirmed): applying one boundary condition whose function
space resolves — possibly by walking from a component subspace to its parent
— to top-level mixed index `k` issues only `set_local_diagonal_entries`
operations on diagonal block `(k, k)`: every off-diagonal block and every
other diagonal block is left unchanged by the boundary-condition application
step (lines 525-557). -/
theorem C3_thm (shape : Nat × Nat) (bc : DirichletBC) (k : Nat)
    (hres : resolvedIndex bc.function_space = some k) :
    ∀ o ∈ (apply_bc_mat shape bc).2,
      o.isSetDiag = true ∧ o.setDiagBlock = some (k, k) :=
  fun _ ho => ⟨apply_bc_mat_mem_isSetDiag ho, apply_bc_mat_mem_block hres ho⟩

/-- Witness for C3 at a concrete input: a boundary condition resolving to
index 1 of a 2-by-2 block matrix touches only block (1, 1). -/
theorem C3_thm_witness :
    resolvedIndex exBC.function_space = some 1
      ∧ ∀ o ∈ (apply_bc_mat (2, 2) exBC).2,
          o.isSetDiag = true ∧ o.setDiagBlock = some (1, 1) :=
  ⟨rfl, C3_thm (2, 2) exBC 1 rfl⟩

/-- Claim C7 (confirmed): applying a boundary condition whose function space
is a full (un-indexed) mixed space — more than one top-level subspace —
fails with the `RuntimeError` of line 532 telling the caller to index into a
component, and sets no diagonal entries for that condition (the issued
operation list is empty). -/
theorem C7_thm (shape : Nat × Nat) (bc : DirichletBC)
    (h : bc.function_space.nspaces > 1) :
    apply_bc_mat shape bc
      = (.error (.runtimeError
          "Cannot apply boundary conditions to full mixed space. Did you forget to index it?"),
         []) := by
  unfold apply_bc_mat
  rw [if_pos h]
  rfl

/-- Witness for C7 at a concrete input: a condition on a two-component
un-indexed mixed space. -/
theorem C7_thm_witness :
    exBCmixed.function_space.nspaces > 1
      ∧ apply_bc_mat (2, 2) exBCmixed
          = (.error (.runtimeError
              "Cannot apply boundary conditions to full mixed space. Did you forget to index it?"),
             []) :=
  ⟨by decide, C7_thm (2, 2) exBCmixed (by decide)⟩

/-- Claim C4 (amended): an unrecognised integral kind is rejected with a
`ValueError` naming the offending kind.  (a) In the rank-2 fresh-tensor path
the classification of integral types (lines 264-282) rejects the first
unrecognised kind, before any accumulation; (b) in the accumulation driver,
the kernel-processing step for an offending kernel fails with the error of
line 485 and issues no operation itself — but kernels listed earlier in the
form have already been issued by then (see the counterexample). -/
theorem C4_thm :
    (∀ t : String, recognized t = false →
      ∀ pre : List String, (∀ x ∈ pre, recognized x = true) →
        ∀ (post : List String) (acc : List Region × List Region × List Region),
          classify_integral_domains (pre ++ t :: post) acc
            = .error (.valueError ("Unknown integral type " ++ quoteD t)))
    ∧ (∀ (ctx : ThunkCtx) (bcs : Option (List DirichletBC)) (idx : Nat)
        (k : SplitKernel) (m : Mesh) (i j : Nat)
        (tsbc trbc : Option (List DirichletBC)),
        ctx.domains[k.kinfo.domain_number]? = some m →
        unpack_indices ctx.rank k.indices = .ok (i, j) →
        m.sdataFor k.kinfo.integral_type = none →
        filter_bcs ctx bcs i j = .ok (tsbc, trbc) →
        recognized k.kinfo.integral_type = false →
        processKernel ctx bcs idx k
          = .error (.valueError
              ("Unknown integral type " ++ quoteS k.kinfo.integral_type))) :=
  ⟨fun t hrec => classify_unknown t hrec,
   fun _ _ _ k m _ _ _ _ hdom hup hsd hf hrec =>
     processKernel_err_itspace hdom hup hsd hf
       (kernel_itspace_unknown m k.kinfo _ hrec)⟩

/-- Witness for C4 at concrete inputs: the kind `"weird"` is rejected by the
classifier after a recognised kind, and by the kernel-processing step. -/
theorem C4_thm_witness :
    classify_integral_domains (["cell"] ++ "weird" :: []) ([], [], [])
        = .error (.valueError ("Unknown integral type " ++ quoteD "weird"))
      ∧ processKernel exCtxW (some []) 1 exKBad
          = .error (.valueError ("Unknown integral type " ++ quoteS "weird")) :=
  ⟨C4_thm.1 "weird" (by decide) ["cell"] (by decide) [] ([], [], []),
   C4_thm.2 exCtxW (some []) 1 exKBad mesh0 0 0 none none rfl rfl rfl rfl
     (by decide)⟩

/-- Claim C4 (counterexample): assembling a rank-1 form whose second kernel
has the unrecognised kind `"weird"` does fail naming the kind — but only
after the first (cell) kernel's accumulation has already been issued, so the
error is not surfaced "before any kernel accumulation is attempted". -/
theorem C4_counterexample :
    (assemble exForm1Bad none (some []) false (some "aij") none false false).1
        = .error (.valueError ("Unknown integral type " ++ quoteS "weird"))
      ∧ (assemble exForm1Bad none (some []) false (some "aij") none
          false false).2.countP Op.isParLoop = 1 :=
  ⟨rfl, rfl⟩

/-- Claim C5 (amended): provided the mesh attaches no subdomain data for the
kernel's integral kind, a kernel with an explicit integer tag iterates
exactly the entities carrying that tag, and an "otherwise" kernel iterates
exactly the entities whose tag is not among the integer tags explicitly
declared (any subdomain id other than "otherwise") by the kernels of the
same integral kind in the same form.  When cell subdomain data is present it
replaces the iteration set instead — see the counterexample. -/
theorem C5_thm (ctx : ThunkCtx) (bcs : Option (List DirichletBC)) (idx : Nat)
    (k : SplitKernel) (m : Mesh) (i j : Nat)
    (tsbc trbc : Option (List DirichletBC))
    (hdom : ctx.domains[k.kinfo.domain_number]? = some m)
    (hup : unpack_indices ctx.rank k.indices = .ok (i, j))
    (hsd : m.sdataFor k.kinfo.integral_type = none)
    (hf : filter_bcs ctx bcs i j = .ok (tsbc, trbc))
    (hrec : recognized k.kinfo.integral_type = true)
    (hcf : ¬(k.kinfo.needs_cell_facets = true ∧ k.kinfo.integral_type ≠ "cell")) :
    (k.kinfo.subdomain_id = SubdomainId.otherwise →
      itsOf (processKernel ctx bcs idx k)
        = some ((m.entitySet k.kinfo.integral_type).filter
            (fun e => !(((ctx.kernels.filter (fun q =>
                  q.kinfo.integral_type == k.kinfo.integral_type
                    && q.kinfo.subdomain_id != SubdomainId.otherwise)).map
                (fun q => q.kinfo.subdomain_id)).any
              (fun s => tagDeclared s e.tag)))))
      ∧ (∀ n : Int, k.kinfo.subdomain_id = SubdomainId.tag n →
        itsOf (processKernel ctx bcs idx k)
          = some ((m.entitySet k.kinfo.integral_type).filter
              (fun e => e.tag == some n))) := by
  obtain ⟨r, hki⟩ := kernel_itspace_no_sdata m k.kinfo
    (all_integer_subdomain_ids ctx.kernels k.kinfo.integral_type) hsd hrec
  have hpk := @processKernel_ok_itspace ctx bcs idx k m i j tsbc trbc _ _
    hdom hup hsd hf hki hcf
  constructor
  · intro hsdid
    rw [hpk]
    show some (measure_set m k.kinfo.integral_type k.kinfo.subdomain_id
        (all_integer_subdomain_ids ctx.kernels k.kinfo.integral_type)) = _
    rw [hsdid]
    simp only [measure_set, all_integer_subdomain_ids]
    congr 1
    refine List.filter_congr (fun e _ => ?_)
    rw [sortSubdomainIds_any]
  · intro n hsdid
    rw [hpk]
    show some (measure_set m k.kinfo.integral_type k.kinfo.subdomain_id
        (all_integer_subdomain_ids ctx.kernels k.kinfo.integral_type)) = _
    rw [hsdid]
    rfl

/-- Witness for C5 at a concrete input: over a tagged mesh with no subdomain
data, a form with a tag-1 kernel and an "otherwise" kernel iterates the
entities with tag 1 for the former and exactly the remaining entities for
the latter. -/
theorem C5_thm_witness :
    itsOf (processKernel exCtxT (some []) 1 kOtherW)
        = some ((meshT.entitySet "cell").filter
            (fun e => !(((exCtxT.kernels.filter (fun q =>
                  q.kinfo.integral_type == "cell"
                    && q.kinfo.subdomain_id != SubdomainId.otherwise)).map
                (fun q => q.kinfo.subdomain_id)).any
              (fun s => tagDeclared s e.tag))))
      ∧ itsOf (processKernel exCtxT (some []) 0 kTag1)
          = some ((meshT.entitySet "cell").filter (fun e => e.tag == some 1)) :=
  ⟨(C5_thm exCtxT (some []) 1 kOtherW meshT 0 0 none none rfl rfl rfl rfl
      (by decide) (by decide)).1 rfl,
   (C5_thm exCtxT (some []) 0 kTag1 meshT 0 0 none none rfl rfl rfl rfl
      (by decide) (by decide)).2 1 rfl⟩

/-- Claim C5 (counterexample): an "otherwise" cell kernel over a mesh that
carries cell subdomain data iterates the subdomain data `[eC]` (line 439)
rather than "exactly the entities whose tag is not among the integer tags
explicitly declared by any other kernel of the same integral kind", which
here is `[eA, eB]`. -/
theorem C5_counterexample :
    exKCell1.kinfo.subdomain_id = SubdomainId.otherwise
      ∧ processKernel exCtxC (some []) 0 exKCell1
          = .ok (.parLoop 0 [eC] none none none)
      ∧ measure_set meshC "cell" SubdomainId.otherwise
          (all_integer_subdomain_ids exCtxC.kernels "cell") = [eA, eB]
      ∧ ([eC] : List Entity) ≠ [eA, eB] :=
  ⟨rfl, rfl, rfl, by decide⟩

/-- The prechecks succeed when the matrix types are valid and the meshes are
consistent. -/
theorem assemble_precheck_ok (f : Form) (mat_type sub_mat_type : Option String)
    (hmt : (["matfree", "aij", "baij", "nest"].contains
        (mat_type.getD parameters_default_matrix_type)) = true)
    (hsmt : (["aij", "baij"].contains
        (sub_mat_type.getD parameters_default_sub_matrix_type)) = true)
    (hmesh : check_mesh_consistency f = .ok ()) :
    assemble_precheck f mat_type sub_mat_type
      = .ok (mat_type.getD parameters_default_matrix_type,
             sub_mat_type.getD parameters_default_sub_matrix_type) := by
  simp only [assemble_precheck]
  split_ifs with h1 h2
  · rw [hmt] at h1; simp at h1
  · rw [hsmt] at h2; simp at h2
  · rw [hmesh]

/-- An error in the setup phase surfaces from `_assemble` with only the form
compilation executed. -/
theorem _assemble_setup_error {f : Form} {tensor : Option Tensor}
    {bcs : Option (List DirichletBC)} {inverse : Bool}
    {mat_type sub_mat_type : Option String} {cl ao : Bool} {mt smt : String}
    {e : AsmError}
    (hpre : assemble_precheck f mat_type sub_mat_type = .ok (mt, smt))
    (hsetup : assemble_setup f tensor bcs inverse mt smt cl ao = .error e) :
    _assemble f tensor bcs inverse mat_type sub_mat_type cl ao
      = (.error e, [Op.compileForm]) := by
  unfold _assemble
  simp only [hpre, hsetup]

/-- A `deferred` setup outcome makes `_assemble` stash the thunk on the
returned matrix without running it. -/
theorem _assemble_deferred {f : Form} {tensor : Option Tensor}
    {bcs : Option (List DirichletBC)} {inverse : Bool}
    {mat_type sub_mat_type : Option String} {mt smt : String}
    {s : Setup} {m : MatrixT} {ctx : ThunkCtx}
    (hpre : assemble_precheck f mat_type sub_mat_type = .ok (mt, smt))
    (hsetup : assemble_setup f tensor bcs inverse mt smt false false = .ok s)
    (hout : s.outcome = .deferred m ctx) :
    _assemble f tensor bcs inverse mat_type sub_mat_type false false
      = (.ok (.matRes m (some ctx)), Op.compileForm :: s.pre_ops) := by
  unfold _assemble
  simp only [hpre, hsetup, hout]
  exact if_neg (by simp)

/-- An `immediate` setup outcome makes `_assemble` run the thunk
synchronously within the call. -/
theorem _assemble_immediate {f : Form} {tensor : Option Tensor}
    {bcs : Option (List DirichletBC)} {inverse : Bool}
    {mat_type sub_mat_type : Option String} {mt smt : String}
    {s : Setup} {ctx : ThunkCtx} {res : AsmRes}
    (hpre : assemble_precheck f mat_type sub_mat_type = .ok (mt, smt))
    (hsetup : assemble_setup f tensor bcs inverse mt smt false false = .ok s)
    (hout : s.outcome = .immediate ctx res) :
    _assemble f tensor bcs inverse mat_type sub_mat_type false false
      = (match thunk ctx bcs with
         | (.error e, ops) => (.error e, (Op.compileForm :: s.pre_ops) ++ ops)
         | (.ok _, ops) => (.ok res, (Op.compileForm :: s.pre_ops) ++ ops)) := by
  unfold _assemble
  simp only [hpre, hsetup, hout]
  exact if_neg (by simp)

/-- The setup phase's fresh rank-2 path propagates a sparsity-construction
failure as the `ValueError` of lines 310-311, before anything is
allocated. -/
theorem assemble_setup_sparsity_error (f : Form) (test trial : FunctionSpace)
    (bcs : Option (List DirichletBC)) (inverse : Bool) (mt smt : String)
    (cl ao : Bool) (cd ed idm : List Region)
    (hargs : f.arguments = [test, trial])
    (hco : has_subscripted_coefficient f = false)
    (hmtf : (mt == "matfree") = false)
    (hcls : classify_integral_domains f.integral_types ([], [], [])
      = .ok (cd, ed, idm))
    (hsp : op2_Sparsity test trial (build_map_pairs test trial cd ed idm)
        (test.name ++ "_" ++ trial.name ++ "_sparsity") (mt == "nest")
        (if (mt == "nest") = true then smt == "baij" else mt == "baij")
      = .error ()) :
    assemble_setup f none bcs inverse mt smt cl ao
      = .error (.valueError
          "Monolithic matrix assembly is not supported for systems with R-space blocks.") := by
  have h2 : (((2 : Nat) != 2)) = false := rfl
  have h2' : (((2 : Nat) == 2)) = true := rfl
  simp only [assemble_setup, hco, hargs, List.length_cons, List.length_nil,
    Nat.zero_add, Nat.reduceAdd, h2, h2', Bool.and_false, Bool.false_eq_true,
    if_false, if_true, hmtf, hcls, hsp]

/-- The setup phase's supplied-tensor rank-2 path reuses the tensor,
re-points its boundary conditions, and defers the thunk — with no validation
beyond rejecting implicit matrices and the mixed-`baij` check. -/
theorem assemble_setup_reuse (f : Form) (test trial : FunctionSpace)
    (m : MatrixT) (bcs : Option (List DirichletBC)) (inverse : Bool)
    (mt smt : String) (cl : Bool)
    (hargs : f.arguments = [test, trial])
    (hco : has_subscripted_coefficient f = false)
    (hmtf : (mt == "matfree") = false)
    (himpl : m.implicit = false)
    (hbaij : (m.block_shape != (1, 1) && mt == "baij") = false) :
    assemble_setup f (some (.mat m)) bcs inverse mt smt cl false
      = .ok ⟨[], .deferred { m with bcs := bcs }
          ⟨f.kernels, f.domains, 2, true, cl, m.block_shape⟩⟩ := by
  have h2 : (((2 : Nat) != 2)) = false := rfl
  have h2' : (((2 : Nat) == 2)) = true := rfl
  simp only [assemble_setup, finish_mat, hco, hargs, List.length_cons,
    List.length_nil, Nat.zero_add, Nat.reduceAdd, h2, h2', Bool.and_false,
    Bool.false_eq_true, if_false, if_true, hmtf, himpl, hbaij]

/-- Line 226-227: `inverse` with a rank other than 2 is rejected in the
setup phase. -/
theorem assemble_setup_inverse_rank (f : Form) (tensor : Option Tensor)
    (bcs : Option (List DirichletBC)) (mt smt : String) (cl ao : Bool)
    (hco : has_subscripted_coefficient f = false)
    (hrank : (f.arguments.length != 2) = true) :
    assemble_setup f tensor bcs true mt smt cl ao
      = .error (.valueError "Can only assemble the inverse of a 2-form") := by
  simp only [assemble_setup, hco, hrank, Bool.false_eq_true, if_false,
    Bool.true_and, if_true]

/-- Lines 239-240: `inverse` with matrix-free assembly is rejected in the
setup phase. -/
theorem assemble_setup_matfree_inverse (f : Form) (test trial : FunctionSpace)
    (tensor : Option Tensor) (bcs : Option (List DirichletBC)) (smt : String)
    (cl ao : Bool)
    (hargs : f.arguments = [test, trial])
    (hco : has_subscripted_coefficient f = false) :
    assemble_setup f tensor bcs true "matfree" smt cl ao
      = .error (.notImplementedError "Inverse not implemented with matfree") := by
  have h2 : (((2 : Nat) != 2)) = false := rfl
  have h2' : (((2 : Nat) == 2)) = true := rfl
  have hmf : (("matfree" : String) == "matfree") = true := rfl
  simp only [assemble_setup, hco, hargs, List.length_cons, List.length_nil,
    Nat.zero_add, Nat.reduceAdd, h2, h2', hmf, Bool.and_false,
    Bool.false_eq_true, if_false, if_true]

/-- Lines 241-242: loop collection with matrix-free assembly is rejected in
the setup phase. -/
theorem assemble_setup_matfree_collect (f : Form) (test trial : FunctionSpace)
    (tensor : Option Tensor) (bcs : Option (List DirichletBC)) (smt : String)
    (ao : Bool)
    (hargs : f.arguments = [test, trial])
    (hco : has_subscripted_coefficient f = false) :
    assemble_setup f tensor bcs false "matfree" smt true ao
      = .error (.notImplementedError
          ("Can" ++ sq ++ "t collect loops with matfree")) := by
  have h2 : (((2 : Nat) != 2)) = false := rfl
  have h2' : (((2 : Nat) == 2)) = true := rfl
  have hmf : (("matfree" : String) == "matfree") = true := rfl
  simp only [assemble_setup, hco, hargs, List.length_cons, List.length_nil,
    Nat.zero_add, Nat.reduceAdd, h2, h2', hmf, Bool.and_false,
    Bool.false_eq_true, if_false, if_true]

/-- Claim C10 (confirmed): when the form's integration domains, arguments
and coefficients do not all share one mesh topology (and the matrix-type
options are otherwise recognised), the call fails before anything happens:
the result is an error and the executed-operation list is empty — no form
compilation, no tensor allocation, no accumulation. -/
theorem C10_thm (f : Form) (tensor : Option Tensor)
    (bcs : Option (List DirichletBC)) (inverse : Bool)
    (mat_type sub_mat_type : Option String) (cl ao : Bool)
    (hmt : (["matfree", "aij", "baij", "nest"].contains
        (mat_type.getD parameters_default_matrix_type)) = true)
    (hsmt : (["aij", "baij"].contains
        (sub_mat_type.getD parameters_default_sub_matrix_type)) = true)
    (hbad : topologies_agree f = false) :
    (_assemble f tensor bcs inverse mat_type sub_mat_type cl ao).1.isOk = false
      ∧ (_assemble f tensor bcs inverse mat_type sub_mat_type cl ao).2 = [] := by
  cases hck : check_mesh_consistency f with
  | ok u =>
    cases u
    rw [(check_mesh_ok_iff f).mp hck] at hbad
    exact absurd hbad (by simp)
  | error e =>
    have hpre : assemble_precheck f mat_type sub_mat_type = .error e := by
      simp only [assemble_precheck]
      split_ifs with h1 h2
      · rw [hmt] at h1; simp at h1
      · rw [hsmt] at h2; simp at h2
      · rw [hck]
    unfold _assemble
    rw [hpre]
    exact ⟨rfl, rfl⟩

/-- Witness for C10 at a concrete input: a form whose two integration
domains live on different topologies. -/
theorem C10_thm_witness :
    topologies_agree exFormMM = false
      ∧ (_assemble exFormMM none (some []) false (some "aij") none false
          false).1.isOk = false
      ∧ (_assemble exFormMM none (some []) false (some "aij") none false
          false).2 = [] :=
  ⟨rfl,
   (C10_thm exFormMM none (some []) false (some "aij") none false false
      rfl rfl rfl).1,
   (C10_thm exFormMM none (some []) false (some "aij") none false false
      rfl rfl rfl).2⟩

/-- Claim C6 (confirmed): a rank-2 assembly allocating a new tensor with
block-sparse storage requested — `mat_type "baij"`, or `mat_type "nest"`
with `sub_mat_type "baij"` — over an argument-space pair some of whose
blocks are not uniformly blockable, fails with the `ValueError` of line 311
(the re-raise of pyop2's `SparsityFormatError`, modelled from the spec) and
allocates nothing: the only executed operation is the form compilation. -/
theorem C6_thm (f : Form) (test trial : FunctionSpace)
    (bcs : Option (List DirichletBC)) (inverse : Bool) (mt smt : String)
    (cl ao : Bool) (cd ed idm : List Region)
    (hargs : f.arguments = [test, trial])
    (hmesh : check_mesh_consistency f = .ok ())
    (hco : has_subscripted_coefficient f = false)
    (hsmt : (["aij", "baij"].contains smt) = true)
    (hbaij : mt = "baij" ∨ (mt = "nest" ∧ smt = "baij"))
    (hcls : classify_integral_domains f.integral_types ([], [], [])
      = .ok (cd, ed, idm))
    (hblk : (test.subs ++ trial.subs).any (fun s => !s.blockable) = true) :
    _assemble f none bcs inverse (some mt) (some smt) cl ao
      = (.error (.valueError
          "Monolithic matrix assembly is not supported for systems with R-space blocks."),
         [Op.compileForm]) := by
  have hmtv : (["matfree", "aij", "baij", "nest"].contains mt) = true := by
    rcases hbaij with h | ⟨h, _⟩ <;> subst h <;> rfl
  have hmtf : (mt == "matfree") = false := by
    rcases hbaij with h | ⟨h, _⟩ <;> subst h <;> rfl
  have hpre : assemble_precheck f (some mt) (some smt) = .ok (mt, smt) :=
    assemble_precheck_ok f (some mt) (some smt) hmtv hsmt hmesh
  have hsp : op2_Sparsity test trial (build_map_pairs test trial cd ed idm)
      (test.name ++ "_" ++ trial.name ++ "_sparsity") (mt == "nest")
      (if (mt == "nest") = true then smt == "baij" else mt == "baij")
      = .error () := by
    unfold op2_Sparsity
    rcases hbaij with h | ⟨h, h2⟩
    · subst h
      simp [hblk]
    · subst h; subst h2
      simp [hblk]
  exact _assemble_setup_error hpre
    (assemble_setup_sparsity_error f test trial bcs inverse mt smt cl ao
      cd ed idm hargs hco hmtf hcls hsp)

/-- Witness for C6 at a concrete input: `exFormR` has an R-type (non
blockable) trial block; requesting `baij` fails without allocating. -/
theorem C6_thm_witness :
    ((exV.subs ++ exRspace.subs).any (fun s => !s.blockable)) = true
      ∧ _assemble exFormR none (some []) false (some "baij") (some "aij")
          false false
        = (.error (.valueError
            "Monolithic matrix assembly is not supported for systems with R-space blocks."),
           [Op.compileForm]) :=
  ⟨rfl,
   C6_thm exFormR exV exRspace (some []) false "baij" "aij" false false
     [Region.ALL] [] [] rfl rfl rfl rfl (Or.inl rfl) rfl rfl⟩

/-- Claim C8 (amended): a caller-supplied rank-2 tensor is reused without
rebuilding its sparsity — no allocation operation is issued — and its
boundary-condition set is re-pointed to the newly supplied set (line 323),
so the tensor assembles with the constraints currently attached to it; but
the only validation performed on the supplied tensor is rejecting implicit
matrices (line 318-319; plus the mixed-`baij` check of line 327): no
rank/shape/sparsity compatibility check takes place. -/
theorem C8_thm (f : Form) (test trial : FunctionSpace) (m : MatrixT)
    (bcs : Option (List DirichletBC)) (inverse : Bool)
    (hargs : f.arguments = [test, trial])
    (hmesh : check_mesh_consistency f = .ok ())
    (hco : has_subscripted_coefficient f = false)
    (himpl : m.implicit = false) :
    _assemble f (some (.mat m)) bcs inverse (some "aij") none false false
      = (.ok (.matRes { m with bcs := bcs }
            (some ⟨f.kernels, f.domains, 2, true, false, m.block_shape⟩)),
         [Op.compileForm]) := by
  have hbaij : (m.block_shape != (1, 1) && ("aij" == "baij")) = false := by
    rw [show (("aij" : String) == "baij") = false from rfl]
    exact Bool.and_false _
  have hpre : assemble_precheck f (some "aij") none = .ok ("aij", "aij") :=
    assemble_precheck_ok f (some "aij") none rfl rfl hmesh
  exact _assemble_deferred hpre
    (assemble_setup_reuse f test trial m bcs inverse "aij" "aij" false
      hargs hco rfl himpl hbaij) rfl

/-- Witness for C8 at a concrete input. -/
theorem C8_thm_witness :
    exBadMat.implicit = false
      ∧ _assemble exForm2 (some (.mat exBadMat)) (some [exBC]) false
          (some "aij") none false false
        = (.ok (.matRes { exBadMat with bcs := some [exBC] }
              (some ⟨exForm2.kernels, exForm2.domains, 2, true, false,
                exBadMat.block_shape⟩)),
           [Op.compileForm]) :=
  ⟨rfl,
   C8_thm exForm2 exV exV exBadMat (some [exBC]) false rfl rfl rfl rfl⟩

/-- Claim C8 (counterexample): a supplied tensor whose block shape (5, 7)
matches no shape the 1-by-1-block form `exForm2` could produce is accepted
without any error — the claimed rank/shape/sparsity compatibility
validation does not happen. -/
theorem C8_counterexample :
    (assemble exForm2 (some (.mat exBadMat)) (some [exBC]) false
        (some "aij") none false false).1.isOk = true
      ∧ exBadMat.block_shape = (5, 7)
      ∧ exForm2.arguments.map FunctionSpace.nspaces = [1, 1] :=
  ⟨rfl, rfl, rfl⟩

/-- Claim C9 (amended): `inverse` is rejected for forms of rank other than 2
(lines 226-227), and together with matrix-free assembly (lines 239-240);
loop collection is rejected together with matrix-free assembly (lines
241-242) — each before any accumulation: the only executed operation is the
form compilation.  But `inverse` together with loop-collection mode is not
itself rejected anywhere: see the counterexample. -/
theorem C9_thm :
    (∀ (f : Form) (tensor : Option Tensor) (bcs : Option (List DirichletBC))
        (mat_type sub_mat_type : Option String) (cl ao : Bool) (mt smt : String),
      assemble_precheck f mat_type sub_mat_type = .ok (mt, smt) →
      has_subscripted_coefficient f = false →
      (f.arguments.length != 2) = true →
      _assemble f tensor bcs true mat_type sub_mat_type cl ao
        = (.error (.valueError "Can only assemble the inverse of a 2-form"),
           [Op.compileForm]))
    ∧ (∀ (f : Form) (test trial : FunctionSpace) (tensor : Option Tensor)
        (bcs : Option (List DirichletBC)) (sub_mat_type : Option String)
        (cl ao : Bool) (smt : String),
      assemble_precheck f (some "matfree") sub_mat_type = .ok ("matfree", smt) →
      f.arguments = [test, trial] →
      has_subscripted_coefficient f = false →
      _assemble f tensor bcs true (some "matfree") sub_mat_type cl ao
        = (.error (.notImplementedError "Inverse not implemented with matfree"),
           [Op.compileForm]))
    ∧ (∀ (f : Form) (test trial : FunctionSpace) (tensor : Option Tensor)
        (bcs : Option (List DirichletBC)) (sub_mat_type : Option String)
        (ao : Bool) (smt : String),
      assemble_precheck f (some "matfree") sub_mat_type = .ok ("matfree", smt) →
      f.arguments = [test, trial] →
      has_subscripted_coefficient f = false →
      _assemble f tensor bcs false (some "matfree") sub_mat_type true ao
        = (.error (.notImplementedError
            ("Can" ++ sq ++ "t collect loops with matfree")),
           [Op.compileForm])) :=
  ⟨fun f tensor bcs _ _ cl ao mt smt hpre hco hrank =>
    _assemble_setup_error hpre
      (assemble_setup_inverse_rank f tensor bcs mt smt cl ao hco hrank),
   fun f test trial tensor bcs _ cl ao smt hpre hargs hco =>
    _assemble_setup_error hpre
      (assemble_setup_matfree_inverse f test trial tensor bcs smt cl ao
        hargs hco),
   fun f test trial tensor bcs _ ao smt hpre hargs hco =>
    _assemble_setup_error hpre
      (assemble_setup_matfree_collect f test trial tensor bcs smt ao
        hargs hco)⟩

/-- Witness for C9 at concrete inputs: a rank-1 form with `inverse`, and a
rank-2 form under `matfree` with `inverse` and with loop collection. -/
theorem C9_thm_witness :
    _assemble exForm1Bad none (some []) true (some "aij") none false false
        = (.error (.valueError "Can only assemble the inverse of a 2-form"),
           [Op.compileForm])
      ∧ _assemble exForm2 none (some []) true (some "matfree") none false false
          = (.error (.notImplementedError "Inverse not implemented with matfree"),
             [Op.compileForm])
      ∧ _assemble exForm2 none (some []) false (some "matfree") none true false
          = (.error (.notImplementedError
              ("Can" ++ sq ++ "t collect loops with matfree")),
             [Op.compileForm]) :=
  ⟨C9_thm.1 exForm1Bad none (some []) (some "aij") none false false
     "aij" "aij" rfl rfl rfl,
   C9_thm.2.1 exForm2 exV exV none (some []) none false false "aij"
     rfl rfl rfl,
   C9_thm.2.2 exForm2 exV exV none (some []) none false "aij"
     rfl rfl rfl⟩

/-- Claim C9 (counterexample): requesting `inverse` together with
loop-collection mode on a rank-2 form is accepted — the call returns the
collected loops with no error, so the claimed mutual exclusion of `inverse`
and loop collection does not exist in the code. -/
theorem C9_counterexample :
    (assemble exForm2 none (some []) true (some "aij") none true false).1.isOk
      = true :=
  rfl

/-- Claim C1 (amended): for a rank-0 or rank-1 form, `_assemble` runs the
full zero → accumulate → constrain pipeline synchronously within the call —
the executed operations are the form compilation and setup allocations
followed by exactly the thunk's operations, and the result reflects the
thunk's outcome.  For a rank-2 form (not matrix-free, not collecting loops,
not allocate-only) the call instead returns the matrix with the thunk
stashed as its assembly callback (line 572) and itself executes no
accumulation and no boundary-condition application: the returned matrix does
not yet hold assembled values. -/
theorem C1_thm :
    (∀ (f : Form) (tensor : Option Tensor) (bcs : Option (List DirichletBC))
        (inverse : Bool) (mat_type sub_mat_type : Option String)
        (mt smt : String) (s : Setup) (m : MatrixT) (ctx : ThunkCtx),
      assemble_precheck f mat_type sub_mat_type = .ok (mt, smt) →
      assemble_setup f tensor bcs inverse mt smt false false = .ok s →
      s.outcome = .deferred m ctx →
      _assemble f tensor bcs inverse mat_type sub_mat_type false false
          = (.ok (.matRes m (some ctx)), Op.compileForm :: s.pre_ops)
        ∧ (Op.compileForm :: s.pre_ops).countP Op.isParLoop = 0
        ∧ (Op.compileForm :: s.pre_ops).countP Op.isSetDiag = 0)
    ∧ (∀ (f : Form) (tensor : Option Tensor) (bcs : Option (List DirichletBC))
        (inverse : Bool) (mat_type sub_mat_type : Option String)
        (mt smt : String) (s : Setup) (ctx : ThunkCtx) (res : AsmRes),
      assemble_precheck f mat_type sub_mat_type = .ok (mt, smt) →
      assemble_setup f tensor bcs inverse mt smt false false = .ok s →
      s.outcome = .immediate ctx res →
      _assemble f tensor bcs inverse mat_type sub_mat_type false false
        = (match thunk ctx bcs with
           | (.error e, ops) => (.error e, (Op.compileForm :: s.pre_ops) ++ ops)
           | (.ok _, ops) => (.ok res, (Op.compileForm :: s.pre_ops) ++ ops))) := by
  constructor
  · intro f tensor bcs inverse mat_type sub_mat_type mt smt s m ctx hpre hsetup hout
    refine ⟨_assemble_deferred hpre hsetup hout, ?_, ?_⟩
    · refine List.countP_eq_zero.mpr (fun o ho => ?_)
      rcases List.mem_cons.mp ho with h | h
      · subst h; simp [Op.isParLoop]
      · have hno := setup_op_not_parLoop o (assemble_setup_pre_ops hsetup o h)
        simp [hno]
    · refine List.countP_eq_zero.mpr (fun o ho => ?_)
      rcases List.mem_cons.mp ho with h | h
      · subst h; simp [Op.isSetDiag]
      · have hno := setup_op_not_setDiag o (assemble_setup_pre_ops hsetup o h)
        simp [hno]
  · intro f tensor bcs inverse mat_type sub_mat_type mt smt s ctx res
      hpre hsetup hout
    exact _assemble_immediate hpre hsetup hout

/-- Witness for C1 at a concrete input: assembling the rank-2 form `exForm2`
returns the freshly allocated matrix with the thunk stashed; the executed
operations are compilation and allocation only. -/
theorem C1_thm_witness :
    assemble_setup exForm2 none (some []) false "aij" "aij" false false
        = .ok ⟨[Op.allocSparsity, Op.allocMatrix],
            .deferred exFreshMat exCtxF⟩
      ∧ _assemble exForm2 none (some []) false (some "aij") none false false
          = (.ok (.matRes exFreshMat (some exCtxF)),
             Op.compileForm :: [Op.allocSparsity, Op.allocMatrix])
      ∧ (Op.compileForm :: [Op.allocSparsity, Op.allocMatrix]).countP
          Op.isParLoop = 0 :=
  ⟨rfl,
   (C1_thm.1 exForm2 none (some []) false (some "aij") none "aij" "aij"
      ⟨[Op.allocSparsity, Op.allocMatrix], .deferred exFreshMat exCtxF⟩
      exFreshMat exCtxF rfl rfl rfl).1,
   (C1_thm.1 exForm2 none (some []) false (some "aij") none "aij" "aij"
      ⟨[Op.allocSparsity, Op.allocMatrix], .deferred exFreshMat exCtxF⟩
      exFreshMat exCtxF rfl rfl rfl).2.1⟩

/-- Claim C1 (counterexample): a call to `assemble` on a rank-2 form with
one kernel returns normally having executed *no* kernel accumulation — the
pipeline is deferred to the stashed assembly callback, so the returned
matrix does not already hold the assembled values when the call returns. -/
theorem C1_counterexample :
    (assemble exForm2 none (some []) false (some "aij") none false
        false).1.isOk = true
      ∧ (assemble exForm2 none (some []) false (some "aij") none false
          false).2.countP Op.isParLoop = 0
      ∧ exForm2.kernels.length = 1 :=
  ⟨rfl, rfl, rfl⟩

end Fd
